import Mathlib

/-!
Verification of the righthand-ops-hub authentication core: a shallow
embedding of the Token Service (`AuthService` in `auth.service.ts`), the
Authentication/Authorization Guards (`authGuard.ts`) and the auth
controller (`auth.controller.ts`), with theorems settling the spec's
claims about them.

Modelling conventions:
- JS strings are Lean `String`s; `String.split(' ')` is modelled by
  `splitOnChar`, `String.includes` by `strIncludes`, `Array.join(', ')`
  by `String.intercalate ", "`.
- The jsonwebtoken library's HMAC signature is modelled as an ideal MAC:
  a signature value records the signing key and the exact signed claims,
  and verification compares it with the MAC recomputed from the
  verifier's key (unforgeable, collision-free).
- The JWS compact string serialization (base64 encoding of a token) is
  external to the repository; where a token travels as a string we keep
  the string and a decoding map `dec : String -> Option SignedToken`
  (`none` models an undecodable string, on which jsonwebtoken throws
  `JsonWebTokenError`).
- Thrown JS `Error(msg)` values carry only their message, and the
  repository dispatches on message substrings; we model thrown errors as
  their message strings where the repository consumes them that way.
- Timestamps are seconds as `Nat`; `jwt.verify` checks in library order:
  signature, then `exp` (expired when `exp <= now`), then audience
  membership, then issuer.
-/

namespace RightHand

/-- Decidable equality for `Except`, so concrete runs of the fallible
operations can be checked by `decide`. -/
instance {ε α : Type} [DecidableEq ε] [DecidableEq α] : DecidableEq (Except ε α) := fun a b =>
  match a, b with
  | .ok x, .ok y =>
    if h : x = y then .isTrue (h ▸ rfl)
    else .isFalse (fun hh => h (Except.ok.inj hh))
  | .error x, .error y =>
    if h : x = y then .isTrue (h ▸ rfl)
    else .isFalse (fun hh => h (Except.error.inj hh))
  | .ok _, .error _ => .isFalse (fun hh => Except.noConfusion hh)
  | .error _, .ok _ => .isFalse (fun hh => Except.noConfusion hh)

/-- Models JS `String.prototype.split` with a single-character separator,
working over the character list of the string: `"".split(sep) = [""]`,
and adjacent separators produce empty segments. -/
def splitOnChar (sep : Char) : List Char → List (List Char)
  | [] => [[]]
  | c :: rest =>
    if c = sep then [] :: splitOnChar sep rest
    else
      match splitOnChar sep rest with
      | [] => [[c]]
      | p :: ps => (c :: p) :: ps

/-- Boolean test that `pat` is a prefix of `l` (helper for `containsSub`). -/
def startsWith : List Char → List Char → Bool
  | [], _ => true
  | _ :: _, [] => false
  | a :: as, b :: bs => a == b && startsWith as bs

/-- Boolean test that `pat` occurs as a contiguous sublist of `l`. -/
def containsSub (pat : List Char) : List Char → Bool
  | [] => startsWith pat []
  | c :: rest => startsWith pat (c :: rest) || containsSub pat rest

/-- Models JS `s.includes(pat)`. -/
def strIncludes (s pat : String) : Bool :=
  containsSub pat.toList s.toList

/-- Models JS `s.toLowerCase()` character by character (the emails in
scope are ASCII). -/
def strToLower (s : String) : String :=
  String.mk (s.toList.map Char.toLower)

/-- The identity attached to a request by the guards (`id`, `email`,
`role`, as selected by `getUserFromToken`). -/
structure AuthUser where
  id : Nat
  email : String
  role : String
deriving DecidableEq

/-- A user record held by the Credential Store (Prisma `user` table):
`id`, `email`, bcrypt `password` hash, `role`. -/
structure StoredUser where
  id : Nat
  email : String
  password : String
  role : String
deriving DecidableEq

/-- The `JWTPayload` interface of `auth.service.ts`: `userId`, `email`,
`role` plus the `iat`/`exp` claims added by `jwt.sign`. -/
structure JWTPayload where
  userId : Nat
  email : String
  role : String
  iat : Nat
  exp : Nat
deriving DecidableEq

/-- The full signed content of a token: the payload together with the
registered `issuer` and `audience` claims set at signing time. -/
structure JWTClaims where
  payload : JWTPayload
  issuer : String
  audience : String
deriving DecidableEq

/-- An ideal-MAC signature value: it records the signing key and the
exact claims it signs. Verification recomputes it from the verifier's
key and the received claims and compares. -/
structure MacSig where
  key : String
  signed : JWTClaims
deriving DecidableEq

/-- Computing the MAC of `claims` under `secret`. -/
def macSign (secret : String) (claims : JWTClaims) : MacSig :=
  { key := secret, signed := claims }

/-- A signed JWT: claims plus signature (the decoded form of the opaque
token string). -/
structure SignedToken where
  claims : JWTClaims
  sig : MacSig
deriving DecidableEq

/-- The process-wide JWT configuration of `auth.service.ts`
(`JWT_SECRET`, `JWT_EXPIRES_IN`, `JWT_REFRESH_EXPIRES_IN`). -/
structure AuthConfig where
  jwtSecret : String
  jwtExpiresIn : String
  jwtRefreshExpiresIn : String

/-- The configuration the service falls back to when the corresponding
environment variables are absent. -/
def defaultConfig : AuthConfig :=
  { jwtSecret := "your-super-secret-jwt-key-change-in-production"
    jwtExpiresIn := "24h"
    jwtRefreshExpiresIn := "7d" }

/-- The `issuer` claim used by the service. -/
def ISSUER : String := "righthand-ops-hub"

/-- The audience tag of access tokens. -/
def ACCESS_AUDIENCE : String := "righthand-ops-hub-users"

/-- The audience tag of refresh tokens. -/
def REFRESH_AUDIENCE : String := "righthand-ops-hub-refresh"

/-- The `timeUnits` table of `getTokenExpirationTime` (`s`, `m`, `h`,
`d`; any other character is never looked up by the source, modelled as
0). -/
def unitSeconds (c : Char) : Nat :=
  if c = 's' then 1
  else if c = 'm' then 60
  else if c = 'h' then 3600
  else if c = 'd' then 86400
  else 0

/-- Numeric value of a digit string, as JS `parseInt` computes it on a
string of decimal digits. -/
def digitsVal (ds : List Char) : Nat :=
  ds.foldl (fun a c => a * 10 + (c.toNat - 48)) 0

/-- The regex match `expiresIn.match(/^(\d+)([smhd])$/)` of
`getTokenExpirationTime`: `some (value, unit)` when the whole string is
one or more digits followed by a single unit character. -/
def ttlMatch (l : List Char) : Option (Nat × Char) :=
  match l.getLast? with
  | none => none
  | some u =>
    let ds := l.dropLast
    if !ds.isEmpty && ds.all Char.isDigit
        && (u == 's' || u == 'm' || u == 'h' || u == 'd')
    then some (digitsVal ds, u)
    else none

/-- `AuthService.getTokenExpirationTime`: parses the TTL string against
`^(\d+)([smhd])$` and returns `value * unit`; falls back to 86400 (24h)
on any non-matching input. -/
def getTokenExpirationTime (expiresIn : String) : Nat :=
  match ttlMatch expiresIn.toList with
  | some (v, u) => v * unitSeconds u
  | none => 86400

/-- Models the `ms` timespan parser that `jwt.sign` applies to its
`expiresIn` option, on the `^\d+[smhd]$` sub-grammar this repository's
configuration uses; `none` models `jwt.sign` throwing on an
unparseable timespan. -/
def msToSeconds (s : String) : Option Nat :=
  (ttlMatch s.toList).map (fun p => p.1 * unitSeconds p.2)

/-- `AuthService.generateAccessToken`: builds the payload from the user,
signs with the configured secret, issuer `righthand-ops-hub`, audience
`righthand-ops-hub-users`, expiry `now + access TTL`. `none` models
`jwt.sign` throwing on an unparseable TTL. -/
def generateAccessToken (cfg : AuthConfig) (now : Nat) (user : AuthUser) :
    Option SignedToken :=
  (msToSeconds cfg.jwtExpiresIn).map fun d =>
    let claims : JWTClaims :=
      { payload :=
          { userId := user.id, email := user.email, role := user.role
            iat := now, exp := now + d }
        issuer := ISSUER
        audience := ACCESS_AUDIENCE }
    { claims := claims, sig := macSign cfg.jwtSecret claims }

/-- `AuthService.generateRefreshToken`: same as the access issuer but
with audience `righthand-ops-hub-refresh` and the refresh TTL. -/
def generateRefreshToken (cfg : AuthConfig) (now : Nat) (user : AuthUser) :
    Option SignedToken :=
  (msToSeconds cfg.jwtRefreshExpiresIn).map fun d =>
    let claims : JWTClaims :=
      { payload :=
          { userId := user.id, email := user.email, role := user.role
            iat := now, exp := now + d }
        issuer := ISSUER
        audience := REFRESH_AUDIENCE }
    { claims := claims, sig := macSign cfg.jwtSecret claims }

/-- The three error kinds `AuthService.verifyToken` can throw, one per
catch branch: `jwt.TokenExpiredError`, `jwt.JsonWebTokenError`, and the
fallback branch. -/
inductive VerifyErr where
  | tokenExpired
  | tokenMalformed
  | verificationFailed
deriving DecidableEq

/-- The message of the `Error` thrown by `AuthService.verifyToken` for
each kind. -/
def verifyErrMessage : VerifyErr → String
  | .tokenExpired => "Token has expired"
  | .tokenMalformed => "Invalid token"
  | .verificationFailed => "Token verification failed"

/-- Models `jwt.verify(token, secret, { issuer, audience })`: checks the
signature, then expiry (`TokenExpiredError` when `exp <= now`), then
that the token's audience is a member of the expected audience list,
then the issuer (`JsonWebTokenError` for signature/audience/issuer
failures, mapped to `tokenMalformed` by the service's catch). -/
def jwtVerify (secret issuer : String) (audiences : List String)
    (now : Nat) (t : SignedToken) : Except VerifyErr JWTPayload :=
  if t.sig ≠ macSign secret t.claims then .error .tokenMalformed
  else if t.claims.payload.exp ≤ now then .error .tokenExpired
  else if ¬ (audiences.contains t.claims.audience) then .error .tokenMalformed
  else if t.claims.issuer ≠ issuer then .error .tokenMalformed
  else .ok t.claims.payload

/-- `AuthService.verifyToken`: verifies with issuer `righthand-ops-hub`
and expected audience list
`['righthand-ops-hub-users', 'righthand-ops-hub-refresh']` — both
audiences are accepted by the one verifier. -/
def verifyToken (cfg : AuthConfig) (now : Nat) (t : SignedToken) :
    Except VerifyErr JWTPayload :=
  jwtVerify cfg.jwtSecret ISSUER [ACCESS_AUDIENCE, REFRESH_AUDIENCE] now t

/-- The `TokenResponse` interface: both tokens, `expiresIn` seconds for
the access token, `tokenType: 'Bearer'`. -/
structure TokenResponse where
  accessToken : SignedToken
  refreshToken : SignedToken
  expiresIn : Nat
  tokenType : String
deriving DecidableEq

/-- `AuthService.generateTokens`: issues both tokens and reports
`expiresIn` computed by `getTokenExpirationTime` on the access TTL.
`none` models `jwt.sign` throwing inside either issuer. -/
def generateTokens (cfg : AuthConfig) (now : Nat) (user : AuthUser) :
    Option TokenResponse :=
  match generateAccessToken cfg now user, generateRefreshToken cfg now user with
  | some a, some r =>
    some { accessToken := a, refreshToken := r
           expiresIn := getTokenExpirationTime cfg.jwtExpiresIn
           tokenType := "Bearer" }
  | _, _ => none

/-- The two error kinds `AuthService.extractTokenFromHeader` can throw:
the falsy-header check and the format check. -/
inductive ExtractErr where
  | headerRequired
  | invalidFormat
deriving DecidableEq

/-- The message of the `Error` thrown by `extractTokenFromHeader` for
each kind. -/
def extractErrMessage : ExtractErr → String
  | .headerRequired => "Authorization header is required"
  | .invalidFormat => "Invalid authorization header format. Expected: Bearer <token>"

/-- `AuthService.extractTokenFromHeader`: throws on a falsy (empty)
header; splits on a single space; requires exactly two parts with the
first equal to `Bearer`; returns the second part. -/
def extractTokenFromHeader (authHeader : String) : Except ExtractErr String :=
  if authHeader = "" then .error .headerRequired
  else
    match splitOnChar ' ' authHeader.toList with
    | [p0, p1] =>
      if p0 = "Bearer".toList then .ok (String.mk p1)
      else .error .invalidFormat
    | _ => .error .invalidFormat

/-- `prisma.user.findUnique({ where: { id } })` over a list-modelled
store. -/
def findById (store : List StoredUser) (i : Nat) : Option StoredUser :=
  store.find? (fun u => u.id == i)

/-- `prisma.user.findUnique({ where: { email } })` over a list-modelled
store. -/
def findByEmail (store : List StoredUser) (e : String) : Option StoredUser :=
  store.find? (fun u => u.email == e)

/-- `AuthService.getUserFromToken`: verifies the token, then re-resolves
the user by `decoded.userId`; throws `User not found` when absent. The
error is the thrown message, since callers dispatch on message
substrings. -/
def getUserFromToken (cfg : AuthConfig) (now : Nat) (store : List StoredUser)
    (t : SignedToken) : Except String AuthUser :=
  match verifyToken cfg now t with
  | .error e => .error (verifyErrMessage e)
  | .ok pl =>
    match findById store pl.userId with
    | none => .error "User not found"
    | some u => .ok { id := u.id, email := u.email, role := u.role }

/-- A structured `{ error, message }` reply with its HTTP status, as the
guards send it. -/
structure HttpResponse where
  status : Nat
  error : String
  message : String
deriving DecidableEq

/-- Outcome of the authentication middleware: a terminal reply, or an
identity attached to the request that then continues. -/
inductive GuardOutcome where
  | reject (r : HttpResponse)
  | attach (u : AuthUser)
deriving DecidableEq

/-- The catch-block dispatcher of `authGuard`, branching on substrings
of the caught error's message exactly as the source does
(`includes('expired')`, `includes('Invalid')`,
`includes('User not found')`, fallback). -/
def authFailureResponse (msg : String) : HttpResponse :=
  if strIncludes msg "expired" then
    { status := 401, error := "Token expired"
      message := "Your session has expired. Please login again." }
  else if strIncludes msg "Invalid" then
    { status := 401, error := "Invalid token"
      message := "The provided token is invalid. Please login again." }
  else if strIncludes msg "User not found" then
    { status := 401, error := "User not found"
      message := "The user associated with this token no longer exists." }
  else
    { status := 401, error := "Authentication failed"
      message := "Unable to authenticate request. Please login again." }

/-- The reply `authGuard` sends when the Authorization header is absent
(or falsy, i.e. empty). -/
def missingHeaderResponse : HttpResponse :=
  { status := 401, error := "Authorization header is required"
    message := "Please provide a valid JWT token in the Authorization header" }

/-- `authGuard` of `middleware/authGuard.ts`: rejects a missing or empty
header directly; otherwise extracts the token string, decodes it
(`dec none` models a string jsonwebtoken cannot decode, which throws
`JsonWebTokenError` and surfaces as the `Invalid token` message),
resolves the user, and attaches it; every thrown message goes through
the catch-block dispatcher. -/
def authGuard (cfg : AuthConfig) (now : Nat) (store : List StoredUser)
    (dec : String → Option SignedToken) (authHeader : Option String) :
    GuardOutcome :=
  match authHeader with
  | none => .reject missingHeaderResponse
  | some h =>
    if h = "" then .reject missingHeaderResponse
    else
      match extractTokenFromHeader h with
      | .error e => .reject (authFailureResponse (extractErrMessage e))
      | .ok tokStr =>
        match dec tokStr with
        | none => .reject (authFailureResponse (verifyErrMessage .tokenMalformed))
        | some t =>
          match getUserFromToken cfg now store t with
          | .error msg => .reject (authFailureResponse msg)
          | .ok u => .attach u

/-- Outcome of the role middleware: a terminal reply, or the request
proceeds unchanged. -/
inductive RoleOutcome where
  | respond (r : HttpResponse)
  | proceed
deriving DecidableEq

/-- `requireRoles` of `middleware/authGuard.ts`: 401 when no identity is
attached; 403 with the role-enumerating message when the identity's role
is not in the allowed list (`Array.includes`, exact string comparison);
otherwise the request continues. -/
def requireRoles (requiredRoles : List String) (user : Option AuthUser) :
    RoleOutcome :=
  match user with
  | none =>
    .respond { status := 401, error := "Authentication required"
               message := "You must be logged in to access this resource." }
  | some u =>
    if !(requiredRoles.contains u.role) then
      .respond { status := 403, error := "Insufficient permissions"
                 message := "This resource requires one of the following roles: "
                   ++ String.intercalate ", " requiredRoles
                   ++ ". Your role: " ++ u.role }
    else .proceed

/-- The `requireAdmin` convenience guard. -/
def requireAdmin : Option AuthUser → RoleOutcome := requireRoles ["admin"]

/-- The `requireAdminOrModerator` convenience guard. -/
def requireAdminOrModerator : Option AuthUser → RoleOutcome :=
  requireRoles ["admin", "moderator"]

/-- `AuthService.refreshAccessToken`: verifies the refresh token with
the same two-audience `verifyToken`, re-resolves the user (throwing
`User not found` when absent), and issues a fresh pair; the surrounding
catch converts every failure — verification, missing user, or a signing
throw — into the single `Invalid refresh token` error. -/
def refreshAccessToken (cfg : AuthConfig) (now : Nat) (store : List StoredUser)
    (t : SignedToken) : Except String TokenResponse :=
  match verifyToken cfg now t with
  | .error _ => .error "Invalid refresh token"
  | .ok pl =>
    match findById store pl.userId with
    | none => .error "Invalid refresh token"
    | some u =>
      match generateTokens cfg now { id := u.id, email := u.email, role := u.role } with
      | none => .error "Invalid refresh token"
      | some tks => .ok tks

/-- Bodies the auth controller can send. Error replies carry the
`error` field (and a `message` where the source adds one); success
replies carry the fields the source serializes (timestamp fields such
as `createdAt`/`lastLogin` are outside the model). -/
inductive RespBody where
  | err (error : String)
  | errWithMessage (error message : String)
  | loginSuccess (message : String) (tokens : TokenResponse)
      (userId : Nat) (email role : String)
  | registerSuccess (message : String) (userId : Nat) (email role : String)
  | refreshSuccess (message : String) (tokens : TokenResponse)
deriving DecidableEq

/-- A controller reply: status code plus body. -/
structure ApiResponse where
  status : Nat
  body : RespBody
deriving DecidableEq

/-- The email regex `/^[^\s@]+@[^\s@]+\.[^\s@]+$/` of
`auth.controller.ts`, characterized over the character list: exactly one
`@`, no whitespace, a nonempty local part, and after the `@` a `.` that
is neither the first nor the last character. -/
def isValidEmailList (l : List Char) : Bool :=
  match splitOnChar '@' l with
  | [a, b] =>
    !a.isEmpty && !b.isEmpty
      && (a ++ b).all (fun c => !c.isWhitespace)
      && ((b.drop 1).dropLast).contains '.'
  | _ => false

/-- `isValidEmail` of the controller. -/
def isValidEmail (email : String) : Bool :=
  isValidEmailList email.toList

/-- `loginUser` of `auth.controller.ts`: requires both fields (falsy =
empty string), looks the user up by lowercased email, compares the
password with the abstract bcrypt comparator `bcmp`, and replies the
same `401 { error: 'Invalid credentials' }` for an unknown email and a
failing comparison; on success issues tokens (a signing throw surfaces
as the catch-all 500). The `updatedAt` touch has no observable effect in
the model. -/
def loginUser (cfg : AuthConfig) (now : Nat) (bcmp : String → String → Bool)
    (store : List StoredUser) (email password : String) : ApiResponse :=
  if email = "" || password = "" then
    { status := 400, body := .err "Email and password are required" }
  else
    match findByEmail store (strToLower email) with
    | none => { status := 401, body := .err "Invalid credentials" }
    | some u =>
      if !(bcmp password u.password) then
        { status := 401, body := .err "Invalid credentials" }
      else
        match generateTokens cfg now { id := u.id, email := u.email, role := u.role } with
        | none => { status := 500, body := .err "Internal server error" }
        | some tks =>
          { status := 200
            body := .loginSuccess "Login successful" tks u.id u.email u.role }

/-- `registerUser` of `auth.controller.ts`: requires both fields, then
the 6-character password minimum, then the email regex, then no
duplicate of the lowercased email; on success creates the record with
the lowercased email, the hash `bhash password`, and the hardcoded role
`viewer`. Returns the reply and the created record (`none` when nothing
was created); the store id is modelled as the autoincrement
`store.length + 1`. -/
def registerUser (bhash : String → String) (store : List StoredUser)
    (email password : String) : ApiResponse × Option StoredUser :=
  if email = "" || password = "" then
    ({ status := 400, body := .err "Email and password are required" }, none)
  else if password.length < 6 then
    ({ status := 400, body := .err "Password must be at least 6 characters long" }, none)
  else if !(isValidEmail email) then
    ({ status := 400, body := .err "Please provide a valid email address" }, none)
  else
    match findByEmail store (strToLower email) with
    | some _ => ({ status := 400, body := .err "User already exists" }, none)
    | none =>
      let newUser : StoredUser :=
        { id := store.length + 1, email := strToLower email
          password := bhash password, role := "viewer" }
      ({ status := 201
         body := .registerSuccess "User created successfully"
           newUser.id newUser.email newUser.role },
       some newUser)

/-- The `refreshToken` controller handler: 400 when the body field is
absent or falsy; otherwise calls `refreshAccessToken` on the decoded
token (an undecodable string throws inside `verifyToken` and is caught
to the same `Invalid refresh token` error) and maps an error whose
message includes `Invalid refresh token` to the 401 reply, anything else
to 500. -/
def refreshEndpoint (cfg : AuthConfig) (now : Nat) (store : List StoredUser)
    (dec : String → Option SignedToken) (body : Option String) : ApiResponse :=
  match body with
  | none =>
    { status := 400
      body := .errWithMessage "Refresh token is required"
        "Please provide a valid refresh token." }
  | some s =>
    if s = "" then
      { status := 400
        body := .errWithMessage "Refresh token is required"
          "Please provide a valid refresh token." }
    else
      let r :=
        match dec s with
        | none => Except.error "Invalid refresh token"
        | some t => refreshAccessToken cfg now store t
      match r with
      | .error msg =>
        if strIncludes msg "Invalid refresh token" then
          { status := 401
            body := .errWithMessage "Invalid refresh token"
              "The provided refresh token is invalid or expired. Please login again." }
        else { status := 500, body := .err "Internal server error" }
      | .ok tks =>
        { status := 200, body := .refreshSuccess "Tokens refreshed successfully" tks }

/-- A sample identity used in concrete evaluations. -/
def u0 : AuthUser := { id := 1, email := "a@b.c", role := "viewer" }

/-- The Credential Store record of `u0` (hash field is opaque here). -/
def su0 : StoredUser := { id := 1, email := "a@b.c", password := "h0", role := "viewer" }

/-- The claims of the access token issued for `u0` at time 0 under the
default configuration (24h TTL). -/
def accClaims0 : JWTClaims :=
  { payload := { userId := 1, email := "a@b.c", role := "viewer", iat := 0, exp := 86400 }
    issuer := ISSUER, audience := ACCESS_AUDIENCE }

/-- The access token issued for `u0` at time 0 under the default
configuration. -/
def accTok0 : SignedToken :=
  { claims := accClaims0, sig := macSign defaultConfig.jwtSecret accClaims0 }

/-- The claims of the refresh token issued for `u0` at time 0 under the
default configuration (7d TTL). -/
def refClaims0 : JWTClaims :=
  { payload := { userId := 1, email := "a@b.c", role := "viewer", iat := 0, exp := 604800 }
    issuer := ISSUER, audience := REFRESH_AUDIENCE }

/-- The refresh token issued for `u0` at time 0 under the default
configuration. -/
def refTok0 : SignedToken :=
  { claims := refClaims0, sig := macSign defaultConfig.jwtSecret refClaims0 }

/-- A token carrying `u0`'s refresh claims but signed under a different
key: its signature does not verify under the service secret. -/
def badSigTok0 : SignedToken :=
  { claims := refClaims0, sig := macSign "wrong-secret" refClaims0 }

/-- Claims already expired at time 5 (`exp = 3`). -/
def expClaims0 : JWTClaims :=
  { payload := { userId := 1, email := "a@b.c", role := "viewer", iat := 0, exp := 3 }
    issuer := ISSUER, audience := ACCESS_AUDIENCE }

/-- An expired token whose signature is also invalid under the service
secret. -/
def expiredBadSigTok0 : SignedToken :=
  { claims := expClaims0, sig := macSign "wrong-secret" expClaims0 }

/-- An expired token correctly signed under the default secret. -/
def expiredTok0 : SignedToken :=
  { claims := expClaims0, sig := macSign defaultConfig.jwtSecret expClaims0 }

/-- A decoding map under which no string decodes to a token. -/
def decNone : String → Option SignedToken := fun _ => none

/-- A decoding map binding the string `rt` to `refTok0` and `at` to
`accTok0`. -/
def dec0 : String → Option SignedToken := fun s =>
  if s = "rt" then some refTok0
  else if s = "at" then some accTok0
  else none

/-- Claims of a validly-signed, long-lived access token for a `userId`
(2) that has no record in the sample store. -/
def goneClaims1 : JWTClaims :=
  { payload := { userId := 2, email := "x@y.z", role := "viewer", iat := 0, exp := 999999999 }
    issuer := ISSUER, audience := ACCESS_AUDIENCE }

/-- The token carrying `goneClaims1`, signed under the default secret. -/
def goneTok1 : SignedToken :=
  { claims := goneClaims1, sig := macSign defaultConfig.jwtSecret goneClaims1 }

/-- A decoding map binding `rt` to `refTok0`, `bad` to `badSigTok0`,
and `gone` to `goneTok1`. -/
def dec1 : String → Option SignedToken := fun s =>
  if s = "rt" then some refTok0
  else if s = "bad" then some badSigTok0
  else if s = "gone" then some goneTok1
  else none

/-! Helper lemmas about the split model, shared by the theorems below. -/

/-- Splitting a list that does not contain the separator yields the one
segment. -/
theorem splitOnChar_of_not_mem (sep : Char) (l : List Char) (h : sep ∉ l) :
    splitOnChar sep l = [l] := by
  induction l with
  | nil => rfl
  | cons c rest ih =>
    have hc : ¬ c = sep := fun hc => h (hc ▸ List.mem_cons_self c rest)
    have hrest : sep ∉ rest := fun hm => h (List.mem_cons_of_mem c hm)
    rw [splitOnChar, if_neg hc, ih hrest]

/-- Splitting at the first separator occurrence peels off the
separator-free part before it. -/
theorem splitOnChar_append_sep (sep : Char) (l₁ l₂ : List Char) (h : sep ∉ l₁) :
    splitOnChar sep (l₁ ++ sep :: l₂) = l₁ :: splitOnChar sep l₂ := by
  induction l₁ with
  | nil => simp [splitOnChar]
  | cons c rest ih =>
    have hc : ¬ c = sep := fun hc => h (hc ▸ List.mem_cons_self c rest)
    have hrest : sep ∉ rest := fun hm => h (List.mem_cons_of_mem c hm)
    rw [List.cons_append, splitOnChar, if_neg hc, ih hrest]

/-! Claim theorems. -/

/-- C1: the audience-binding invariant is not enforced by the code.
`verifyToken` verifies against the fixed audience list containing both
the access and the refresh audience, so the refresh token issued for
`u0` is accepted by the very verifier protected routes use (the guard
attaches the user for a refresh token), and conversely the access token
is accepted by `refreshAccessToken`, which issues a fresh pair from it. -/
theorem audience_binding_not_enforced :
    generateRefreshToken defaultConfig 0 u0 = some refTok0
    ∧ verifyToken defaultConfig 0 refTok0 = Except.ok refClaims0.payload
    ∧ authGuard defaultConfig 0 [su0] dec0 (some "Bearer rt") = GuardOutcome.attach u0
    ∧ generateAccessToken defaultConfig 0 u0 = some accTok0
    ∧ refreshAccessToken defaultConfig 0 [su0] accTok0 =
        Except.ok { accessToken := accTok0, refreshToken := refTok0
                    expiresIn := 86400, tokenType := "Bearer" } := by
  refine ⟨by decide, by decide, by decide, by decide, by decide⟩

/-- C2 counterexample: the failure for a refresh token whose `userId`
has no record is the same `Invalid refresh token` error value that a
signature failure produces — the claimed distinct, distinguishable
`IdentityNotFound` kind does not exist at the caller-visible boundary
(the internal `User not found` throw is swallowed by the catch-all). -/
theorem refresh_missing_user_error_collapsed :
    refreshAccessToken defaultConfig 0 [] refTok0 = Except.error "Invalid refresh token"
    ∧ refreshAccessToken defaultConfig 0 [su0] badSigTok0 = Except.error "Invalid refresh token" := by
  refine ⟨by decide, by decide⟩

/-- C2 (amended): for every refresh token that verifies but whose
embedded `userId` has no record in the store, `refreshAccessToken` fails
with the generic `Invalid refresh token` error (so no new `TokenPair` is
returned), and the refresh endpoint surfaces it as the 401
`Invalid refresh token` reply — indistinguishable from a
signature/expiry failure. -/
theorem refresh_missing_user_generic_error (cfg : AuthConfig) (now : Nat)
    (store : List StoredUser) (t : SignedToken) (pl : JWTPayload)
    (s : String) (dec : String → Option SignedToken)
    (hv : verifyToken cfg now t = Except.ok pl)
    (hf : findById store pl.userId = none)
    (hs : s ≠ "") (hdec : dec s = some t) :
    refreshAccessToken cfg now store t = Except.error "Invalid refresh token"
    ∧ refreshEndpoint cfg now store dec (some s) =
        { status := 401
          body := RespBody.errWithMessage "Invalid refresh token"
            "The provided refresh token is invalid or expired. Please login again." } := by
  have hserv : refreshAccessToken cfg now store t = Except.error "Invalid refresh token" := by
    rw [refreshAccessToken, hv]
    simp only [hf]
  refine ⟨hserv, ?_⟩
  simp only [refreshEndpoint, if_neg hs, hdec, hserv]
  rw [if_pos (by decide)]

/-- C2 witness: the amended theorem applied to `refTok0` against an
empty store, surfaced through the `rt` body string. -/
theorem refresh_missing_user_generic_error_witness :
    refreshAccessToken defaultConfig 0 [] refTok0 = Except.error "Invalid refresh token"
    ∧ refreshEndpoint defaultConfig 0 [] dec0 (some "rt") =
        { status := 401
          body := RespBody.errWithMessage "Invalid refresh token"
            "The provided refresh token is invalid or expired. Please login again." } :=
  refresh_missing_user_generic_error defaultConfig 0 [] refTok0 refClaims0.payload
    "rt" dec0 (by decide) (by decide) (by decide) (by decide)

/-- C3 counterexample: a present Authorization header that is not of
`Bearer <token>` form produces exactly the same 401 reply — error code
`Invalid token` — as a token jsonwebtoken cannot even decode: the thrown
header-format message contains the substring `Invalid`, so the guard's
catch maps it into the invalid-token branch, and no distinct
`invalid_header` code exists. -/
theorem malformed_header_same_code_as_bad_token :
    authGuard defaultConfig 0 [] decNone (some "Basic abc") =
      GuardOutcome.reject
        { status := 401, error := "Invalid token"
          message := "The provided token is invalid. Please login again." }
    ∧ authGuard defaultConfig 0 [] decNone (some "Bearer garbage") =
      GuardOutcome.reject
        { status := 401, error := "Invalid token"
          message := "The provided token is invalid. Please login again." } := by
  refine ⟨by decide, by decide⟩

/-- C3 (amended): the guard's actual branch table. A missing or empty
header gets its own 401; an expired, validly-signed token gets the
`Token expired` 401; a token whose verification fails as malformed gets
the `Invalid token` 401; a verified token whose user is gone gets the
`User not found` 401; but a present header not of `Bearer <token>` form
gets the same `Invalid token` 401 as a malformed token, not a distinct
`invalid_header` code. -/
theorem authGuard_branch_table (cfg : AuthConfig) (now : Nat)
    (store : List StoredUser) (dec : String → Option SignedToken)
    (s1 : String)
    (s2 tokStr2 : String) (t2 : SignedToken)
    (s3 tokStr3 : String) (t3 : SignedToken)
    (s4 tokStr4 : String) (t4 : SignedToken) (pl4 : JWTPayload)
    (hs1 : s1 ≠ "") (hex1 : extractTokenFromHeader s1 = Except.error ExtractErr.invalidFormat)
    (hs2 : s2 ≠ "") (hex2 : extractTokenFromHeader s2 = Except.ok tokStr2)
    (hdec2 : dec tokStr2 = some t2)
    (hsig2 : t2.sig = macSign cfg.jwtSecret t2.claims)
    (hexp2 : t2.claims.payload.exp ≤ now)
    (hs3 : s3 ≠ "") (hex3 : extractTokenFromHeader s3 = Except.ok tokStr3)
    (hdec3 : dec tokStr3 = some t3)
    (hv3 : verifyToken cfg now t3 = Except.error VerifyErr.tokenMalformed)
    (hs4 : s4 ≠ "") (hex4 : extractTokenFromHeader s4 = Except.ok tokStr4)
    (hdec4 : dec tokStr4 = some t4)
    (hv4 : verifyToken cfg now t4 = Except.ok pl4)
    (hf4 : findById store pl4.userId = none) :
    authGuard cfg now store dec none = GuardOutcome.reject missingHeaderResponse
    ∧ authGuard cfg now store dec (some "") = GuardOutcome.reject missingHeaderResponse
    ∧ authGuard cfg now store dec (some s1) = GuardOutcome.reject
        { status := 401, error := "Invalid token"
          message := "The provided token is invalid. Please login again." }
    ∧ authGuard cfg now store dec (some s2) = GuardOutcome.reject
        { status := 401, error := "Token expired"
          message := "Your session has expired. Please login again." }
    ∧ authGuard cfg now store dec (some s3) = GuardOutcome.reject
        { status := 401, error := "Invalid token"
          message := "The provided token is invalid. Please login again." }
    ∧ authGuard cfg now store dec (some s4) = GuardOutcome.reject
        { status := 401, error := "User not found"
          message := "The user associated with this token no longer exists." } := by
  refine ⟨rfl, rfl, ?_, ?_, ?_, ?_⟩
  · simp only [authGuard, if_neg hs1, hex1]
    rw [show authFailureResponse (extractErrMessage ExtractErr.invalidFormat) =
      { status := 401, error := "Invalid token"
        message := "The provided token is invalid. Please login again." } from by decide]
  · have hv2 : verifyToken cfg now t2 = Except.error VerifyErr.tokenExpired := by
      rw [verifyToken, jwtVerify, if_neg (by simp [hsig2]), if_pos hexp2]
    simp only [authGuard, if_neg hs2, hex2, hdec2, getUserFromToken, hv2]
    rw [show authFailureResponse (verifyErrMessage VerifyErr.tokenExpired) =
      { status := 401, error := "Token expired"
        message := "Your session has expired. Please login again." } from by decide]
  · simp only [authGuard, if_neg hs3, hex3, hdec3, getUserFromToken, hv3]
    rw [show authFailureResponse (verifyErrMessage VerifyErr.tokenMalformed) =
      { status := 401, error := "Invalid token"
        message := "The provided token is invalid. Please login again." } from by decide]
  · simp only [authGuard, if_neg hs4, hex4, hdec4, getUserFromToken, hv4, hf4]
    rw [show authFailureResponse "User not found" =
      { status := 401, error := "User not found"
        message := "The user associated with this token no longer exists." } from by decide]

/-- C3 witness: the branch table instantiated on concrete headers —
`Basic abc` (malformed header), and `Bearer` headers carrying an
expired token, an undecodable-signature token, and a token for a user
absent from the store. -/
theorem authGuard_branch_table_witness :
    authGuard defaultConfig 700000 [su0] dec1 none = GuardOutcome.reject missingHeaderResponse
    ∧ authGuard defaultConfig 700000 [su0] dec1 (some "") = GuardOutcome.reject missingHeaderResponse
    ∧ authGuard defaultConfig 700000 [su0] dec1 (some "Basic abc") = GuardOutcome.reject
        { status := 401, error := "Invalid token"
          message := "The provided token is invalid. Please login again." }
    ∧ authGuard defaultConfig 700000 [su0] dec1 (some "Bearer rt") = GuardOutcome.reject
        { status := 401, error := "Token expired"
          message := "Your session has expired. Please login again." }
    ∧ authGuard defaultConfig 700000 [su0] dec1 (some "Bearer bad") = GuardOutcome.reject
        { status := 401, error := "Invalid token"
          message := "The provided token is invalid. Please login again." }
    ∧ authGuard defaultConfig 700000 [su0] dec1 (some "Bearer gone") = GuardOutcome.reject
        { status := 401, error := "User not found"
          message := "The user associated with this token no longer exists." } :=
  authGuard_branch_table defaultConfig 700000 [su0] dec1
    "Basic abc" "Bearer rt" "rt" refTok0 "Bearer bad" "bad" badSigTok0
    "Bearer gone" "gone" goneTok1 goneClaims1.payload
    (by decide) (by decide) (by decide) (by decide) (by decide) (by decide)
    (by decide) (by decide) (by decide) (by decide) (by decide) (by decide)
    (by decide) (by decide) (by decide) (by decide)

/-- C4 counterexample: a token whose `expiresAt` is at or before the
current time but whose signature is invalid fails as `tokenMalformed`,
not `tokenExpired` — jsonwebtoken verifies the signature before it
trusts the expiry claim, so the claim's unconditional quantification
over all tokens is false. -/
theorem expired_bad_signature_is_malformed :
    expiredBadSigTok0.claims.payload.exp ≤ 5
    ∧ verifyToken defaultConfig 5 expiredBadSigTok0 = Except.error VerifyErr.tokenMalformed
    ∧ VerifyErr.tokenMalformed ≠ VerifyErr.tokenExpired := by
  refine ⟨by decide, by decide, by decide⟩

/-- C4 (amended): for every token whose signature is valid under the
service secret and whose `expiresAt` is at or before the current time,
`verifyToken` fails with `tokenExpired` and never `tokenMalformed`; the
two kinds are distinct constructors a caller can tell apart. -/
theorem verify_expired_valid_signature (cfg : AuthConfig) (now : Nat) (t : SignedToken)
    (hsig : t.sig = macSign cfg.jwtSecret t.claims)
    (hexp : t.claims.payload.exp ≤ now) :
    verifyToken cfg now t = Except.error VerifyErr.tokenExpired
    ∧ VerifyErr.tokenExpired ≠ VerifyErr.tokenMalformed := by
  refine ⟨?_, by decide⟩
  rw [verifyToken, jwtVerify, if_neg (by simp [hsig]), if_pos hexp]

/-- C4 witness: the amended theorem applied to the validly-signed
expired token `expiredTok0` at time 5. -/
theorem verify_expired_valid_signature_witness :
    verifyToken defaultConfig 5 expiredTok0 = Except.error VerifyErr.tokenExpired
    ∧ VerifyErr.tokenExpired ≠ VerifyErr.tokenMalformed :=
  verify_expired_valid_signature defaultConfig 5 expiredTok0 (by decide) (by decide)

/-- C5: round-trip — for every identity and any configuration whose
access TTL parses to a positive number of seconds, verifying the freshly
issued access token at issuance time succeeds and returns a payload
whose `userId`, `email` and `role` equal the identity's (with the
`iat`/`exp` claims the issuer set). -/
theorem verify_roundtrip_access (cfg : AuthConfig) (now : Nat) (u : AuthUser) (d : Nat)
    (hd : msToSeconds cfg.jwtExpiresIn = some d) (hpos : 0 < d) :
    (generateAccessToken cfg now u).map (verifyToken cfg now)
      = some (Except.ok
          { userId := u.id, email := u.email, role := u.role, iat := now, exp := now + d }) := by
  rw [generateAccessToken, hd, Option.map_some', Option.map_some']
  have hv : verifyToken cfg now
      { claims :=
          { payload := { userId := u.id, email := u.email, role := u.role
                         iat := now, exp := now + d }
            issuer := ISSUER, audience := ACCESS_AUDIENCE }
        sig := macSign cfg.jwtSecret
          { payload := { userId := u.id, email := u.email, role := u.role
                         iat := now, exp := now + d }
            issuer := ISSUER, audience := ACCESS_AUDIENCE } }
      = Except.ok { userId := u.id, email := u.email, role := u.role, iat := now, exp := now + d } := by
    rw [verifyToken, jwtVerify]
    rw [if_neg (by simp [macSign])]
    rw [if_neg (by simp; omega)]
    rw [if_neg (by simp [ACCESS_AUDIENCE, REFRESH_AUDIENCE])]
    rw [if_neg (by simp [ISSUER])]
  rw [hv]

/-- C5 witness: the round-trip at the default configuration, identity
`u0`, issuance time 0, with the 24h TTL parsing to 86400 seconds. -/
theorem verify_roundtrip_access_witness :
    (generateAccessToken defaultConfig 0 u0).map (verifyToken defaultConfig 0)
      = some (Except.ok
          { userId := u0.id, email := u0.email, role := u0.role, iat := 0, exp := 0 + 86400 }) :=
  verify_roundtrip_access defaultConfig 0 u0 86400 (by decide) (by decide)

/-- C6 counterexample: the empty header string fails the falsy check of
`extractTokenFromHeader` and produces the distinct `headerRequired`
error (`Authorization header is required`), not the `invalidFormat`
(`HeaderMalformed`) error the claim asserts for every non-`Bearer`
input. -/
theorem extract_empty_header_not_malformed :
    extractTokenFromHeader "" = Except.error ExtractErr.headerRequired
    ∧ ExtractErr.headerRequired ≠ ExtractErr.invalidFormat := by
  refine ⟨by decide, by decide⟩

/-- C6 (amended): `extractTokenFromHeader` returns the token for a
header of exactly two space-separated parts whose first part is the
case-sensitive string `Bearer` (so `Bearer abc` yields `abc`, and
`Bearer <token>` yields the token for every space-free token), and
fails with the format error on every other non-empty input — that is,
on every non-empty input whose single-space split is not exactly
`Bearer` followed by one part, including `abc` and `Basic abc`; the
empty string alone fails with the distinct `headerRequired` error,
which no non-empty input ever produces. -/
theorem extract_bearer_characterization (tl : List Char) (s1 s2 : String)
    (htl : ' ' ∉ tl) (hs1 : s1 ≠ "") (hs2 : s2 ≠ "")
    (hshape : ∀ t : List Char, splitOnChar ' ' s2.toList ≠ ["Bearer".toList, t]) :
    extractTokenFromHeader "Bearer abc" = Except.ok "abc"
    ∧ extractTokenFromHeader "abc" = Except.error ExtractErr.invalidFormat
    ∧ extractTokenFromHeader "Basic abc" = Except.error ExtractErr.invalidFormat
    ∧ extractTokenFromHeader "" = Except.error ExtractErr.headerRequired
    ∧ extractTokenFromHeader (String.mk ('B' :: 'e' :: 'a' :: 'r' :: 'e' :: 'r' :: ' ' :: tl))
        = Except.ok (String.mk tl)
    ∧ extractTokenFromHeader s1 ≠ Except.error ExtractErr.headerRequired
    ∧ extractTokenFromHeader s2 = Except.error ExtractErr.invalidFormat := by
  refine ⟨by decide, by decide, by decide, by decide, ?_, ?_, ?_⟩
  · have hne : String.mk ('B' :: 'e' :: 'a' :: 'r' :: 'e' :: 'r' :: ' ' :: tl) ≠ "" := by
      intro hh
      simp [String.ext_iff] at hh
    rw [extractTokenFromHeader, if_neg hne]
    have htolist : (String.mk ('B' :: 'e' :: 'a' :: 'r' :: 'e' :: 'r' :: ' ' :: tl)).toList
        = ['B', 'e', 'a', 'r', 'e', 'r'] ++ ' ' :: tl := rfl
    rw [htolist, splitOnChar_append_sep ' ' ['B', 'e', 'a', 'r', 'e', 'r'] tl (by decide),
      splitOnChar_of_not_mem ' ' tl htl]
    show (if ['B', 'e', 'a', 'r', 'e', 'r'] = "Bearer".toList
        then Except.ok (String.mk tl) else Except.error ExtractErr.invalidFormat)
      = Except.ok (String.mk tl)
    rw [if_pos (by decide)]
  · rw [extractTokenFromHeader, if_neg hs1]
    rcases splitOnChar ' ' s1.toList with _ | ⟨p0, _ | ⟨p1, _ | ⟨c, rest⟩⟩⟩
    · simp
    · simp
    · show ¬ (if p0 = "Bearer".toList then Except.ok (String.mk p1)
          else Except.error ExtractErr.invalidFormat) = Except.error ExtractErr.headerRequired
      by_cases hb : p0 = "Bearer".toList
      · rw [if_pos hb]
        simp
      · rw [if_neg hb]
        simp
    · simp
  · rw [extractTokenFromHeader, if_neg hs2]
    rcases h : splitOnChar ' ' s2.toList with _ | ⟨p0, _ | ⟨p1, _ | ⟨c, rest⟩⟩⟩
    · rfl
    · rfl
    · have hb : ¬ p0 = "Bearer".toList := by
        intro hb
        exact hshape p1 (by rw [h, hb])
      show (if p0 = "Bearer".toList then Except.ok (String.mk p1)
          else Except.error ExtractErr.invalidFormat) = Except.error ExtractErr.invalidFormat
      rw [if_neg hb]
    · rfl

/-- C6 witness: the characterization instantiated at the space-free
token `xyz`, the non-empty header `Basic abc` for the headerRequired
exclusion, and the three-part header `Bearer a b` for the universal
failure clause. -/
theorem extract_bearer_characterization_witness :
    extractTokenFromHeader "Bearer abc" = Except.ok "abc"
    ∧ extractTokenFromHeader "abc" = Except.error ExtractErr.invalidFormat
    ∧ extractTokenFromHeader "Basic abc" = Except.error ExtractErr.invalidFormat
    ∧ extractTokenFromHeader "" = Except.error ExtractErr.headerRequired
    ∧ extractTokenFromHeader (String.mk ('B' :: 'e' :: 'a' :: 'r' :: 'e' :: 'r' :: ' ' :: ['x', 'y', 'z']))
        = Except.ok (String.mk ['x', 'y', 'z'])
    ∧ extractTokenFromHeader "Basic abc" ≠ Except.error ExtractErr.headerRequired
    ∧ extractTokenFromHeader "Bearer a b" = Except.error ExtractErr.invalidFormat :=
  extract_bearer_characterization ['x', 'y', 'z'] "Basic abc" "Bearer a b"
    (by decide) (by decide) (by decide)
    (by
      intro t h
      have h0 : splitOnChar ' ' "Bearer a b".toList
          = [['B', 'e', 'a', 'r', 'e', 'r'], ['a'], ['b']] := by decide
      rw [h0] at h
      injection h with h1 h2
      injection h2 with h3 h4
      exact absurd h4 (by decide))


/-- C7: the guard returned by `requireRoles` replies 401
`Authentication required` when no identity is attached; replies 403
`Insufficient permissions` with a message enumerating the allowed roles
(joined with commas) and the caller's actual role when the attached
identity's role is not a member of the allowed list; and otherwise lets
the request proceed. Membership is exact string comparison — the
capitalized role `Admin` does not satisfy an `admin` check. -/
theorem requireRoles_spec (roles roles2 : List String) (u u2 : AuthUser)
    (hmem : roles.contains u.role = false)
    (hmem2 : roles2.contains u2.role = true) :
    requireRoles roles none = RoleOutcome.respond
      { status := 401, error := "Authentication required"
        message := "You must be logged in to access this resource." }
    ∧ requireRoles roles (some u) = RoleOutcome.respond
        { status := 403, error := "Insufficient permissions"
          message := "This resource requires one of the following roles: "
            ++ String.intercalate ", " roles ++ ". Your role: " ++ u.role }
    ∧ requireRoles roles2 (some u2) = RoleOutcome.proceed
    ∧ requireRoles ["admin"] (some { id := 2, email := "e@f.g", role := "Admin" })
        = RoleOutcome.respond
          { status := 403, error := "Insufficient permissions"
            message := "This resource requires one of the following roles: admin. Your role: Admin" } := by
  refine ⟨rfl, ?_, ?_, by decide⟩
  · simp only [requireRoles, hmem]
    rfl
  · simp only [requireRoles, hmem2]
    rfl

/-- C7 witness: `requireRoles ["admin"]` rejecting an `editor` identity
with the enumerating message, and `requireRoles ["admin", "moderator"]`
letting an `admin` identity proceed. -/
theorem requireRoles_spec_witness :
    requireRoles ["admin"] none = RoleOutcome.respond
      { status := 401, error := "Authentication required"
        message := "You must be logged in to access this resource." }
    ∧ requireRoles ["admin"] (some { id := 3, email := "e@f.g", role := "editor" })
        = RoleOutcome.respond
          { status := 403, error := "Insufficient permissions"
            message := "This resource requires one of the following roles: "
              ++ String.intercalate ", " ["admin"] ++ ". Your role: "
              ++ ({ id := 3, email := "e@f.g", role := "editor" } : AuthUser).role }
    ∧ requireRoles ["admin", "moderator"] (some { id := 4, email := "m@f.g", role := "admin" })
        = RoleOutcome.proceed
    ∧ requireRoles ["admin"] (some { id := 2, email := "e@f.g", role := "Admin" })
        = RoleOutcome.respond
          { status := 403, error := "Insufficient permissions"
            message := "This resource requires one of the following roles: admin. Your role: Admin" } :=
  requireRoles_spec ["admin"] ["admin", "moderator"]
    { id := 3, email := "e@f.g", role := "editor" }
    { id := 4, email := "m@f.g", role := "admin" }
    (by decide) (by decide)

/-- C8: two-run indistinguishability at login — a request whose
(lowercased) email has no record and a request whose email resolves but
whose password fails the bcrypt comparison produce the very same
response value: status 401 with body `{ error: 'Invalid credentials' }`.
A caller cannot tell unknown-email from wrong-password apart. -/
theorem login_enumeration_resistant (cfg : AuthConfig) (now : Nat)
    (bcmp : String → String → Bool) (store : List StoredUser)
    (e1 p1 e2 p2 : String) (u : StoredUser)
    (he1 : e1 ≠ "") (hp1 : p1 ≠ "") (he2 : e2 ≠ "") (hp2 : p2 ≠ "")
    (hf1 : findByEmail store (strToLower e1) = none)
    (hf2 : findByEmail store (strToLower e2) = some u)
    (hcmp : bcmp p2 u.password = false) :
    loginUser cfg now bcmp store e1 p1 = loginUser cfg now bcmp store e2 p2
    ∧ loginUser cfg now bcmp store e2 p2
        = { status := 401, body := RespBody.err "Invalid credentials" } := by
  have h1 : loginUser cfg now bcmp store e1 p1
      = { status := 401, body := RespBody.err "Invalid credentials" } := by
    rw [loginUser, if_neg (by simp [he1, hp1])]
    simp only [hf1]
  have h2 : loginUser cfg now bcmp store e2 p2
      = { status := 401, body := RespBody.err "Invalid credentials" } := by
    rw [loginUser, if_neg (by simp [he2, hp2])]
    simp only [hf2, hcmp]
    rfl
  exact ⟨h1.trans h2.symm, h2⟩

/-- C8 witness: against the one-record store `[su0]`, logging in with
the unknown email `z@b.c` and with `su0`'s email but a wrong password
produce the identical 401 `Invalid credentials` response (equality
comparison used as the concrete bcrypt model). -/
theorem login_enumeration_resistant_witness :
    loginUser defaultConfig 0 (fun p h => p == h) [su0] "z@b.c" "pw"
      = loginUser defaultConfig 0 (fun p h => p == h) [su0] "a@b.c" "wrong"
    ∧ loginUser defaultConfig 0 (fun p h => p == h) [su0] "a@b.c" "wrong"
        = { status := 401, body := RespBody.err "Invalid credentials" } :=
  login_enumeration_resistant defaultConfig 0 (fun p h => p == h) [su0]
    "z@b.c" "pw" "a@b.c" "wrong" su0
    (by decide) (by decide) (by decide) (by decide)
    (by decide) (by decide) (by decide)

/-- C9: the TTL parser maps `24h` to 86400, `7d` to 604800 and the
non-matching `bogus` to the 86400 fallback; the unit multipliers are
s=1, m=60, h=3600, d=86400; every string of one or more digits followed
by one unit letter parses to value times multiplier; and every string
the regex rejects yields the fallback 86400. -/
theorem ttl_parser_spec (ds : List Char) (uc : Char) (s : String)
    (hne : ds ≠ []) (hdig : ds.all Char.isDigit = true)
    (hu : uc = 's' ∨ uc = 'm' ∨ uc = 'h' ∨ uc = 'd')
    (hm : ttlMatch s.toList = none) :
    getTokenExpirationTime "24h" = 86400
    ∧ getTokenExpirationTime "7d" = 604800
    ∧ getTokenExpirationTime "bogus" = 86400
    ∧ unitSeconds 's' = 1 ∧ unitSeconds 'm' = 60
    ∧ unitSeconds 'h' = 3600 ∧ unitSeconds 'd' = 86400
    ∧ getTokenExpirationTime (String.mk (ds ++ [uc])) = digitsVal ds * unitSeconds uc
    ∧ getTokenExpirationTime s = 86400 := by
  refine ⟨by decide, by decide, by decide, by decide, by decide, by decide, by decide, ?_, ?_⟩
  · have hempty : ds.isEmpty = false := by
      cases ds
      · exact absurd rfl hne
      · rfl
    have hmatch : ttlMatch (String.mk (ds ++ [uc])).toList = some (digitsVal ds, uc) := by
      show ttlMatch (ds ++ [uc]) = some (digitsVal ds, uc)
      rw [ttlMatch, List.getLast?_concat]
      simp only [List.dropLast_concat]
      rw [if_pos ?_]
      rcases hu with h | h | h | h <;> simp [hempty, hdig, h]
    rw [getTokenExpirationTime, hmatch]
  · rw [getTokenExpirationTime, hm]

/-- C9 witness: the parser characterization instantiated at the digit
list `24` with unit `h` and the rejected string `bogus`. -/
theorem ttl_parser_spec_witness :
    getTokenExpirationTime "24h" = 86400
    ∧ getTokenExpirationTime "7d" = 604800
    ∧ getTokenExpirationTime "bogus" = 86400
    ∧ unitSeconds 's' = 1 ∧ unitSeconds 'm' = 60
    ∧ unitSeconds 'h' = 3600 ∧ unitSeconds 'd' = 86400
    ∧ getTokenExpirationTime (String.mk (['2', '4'] ++ ['h'])) = digitsVal ['2', '4'] * unitSeconds 'h'
    ∧ getTokenExpirationTime "bogus" = 86400 :=
  ttl_parser_spec ['2', '4'] 'h' "bogus" (by decide) (by decide)
    (Or.inr (Or.inr (Or.inl rfl))) (by decide)

/-- C10: every record the registration endpoint creates carries the
hardcoded role `viewer` — whatever the hash function, store and input,
a created record's role is `viewer`, so registration can never produce
an `admin`, `editor` or `moderator` account. -/
theorem register_role_always_viewer (bhash : String → String) (store : List StoredUser)
    (email password : String) (resp : ApiResponse) (rec : StoredUser)
    (h : registerUser bhash store email password = (resp, some rec)) :
    rec.role = "viewer" ∧ rec.role ≠ "admin" ∧ rec.role ≠ "editor" ∧ rec.role ≠ "moderator" := by
  rw [registerUser] at h
  split at h
  · simp at h
  · split at h
    · simp at h
    · split at h
      · simp at h
      · split at h
        · simp at h
        · simp only [Prod.mk.injEq, Option.some.injEq] at h
          rw [← h.2]
          refine ⟨rfl, by simp, by simp, by simp⟩

/-- C10 witness: the theorem applied to the concrete successful
registration of `a@b.c` with password `secret1` into the empty store. -/
theorem register_role_always_viewer_witness :
    ({ id := 1, email := "a@b.c", password := "Hsecret1", role := "viewer" } : StoredUser).role = "viewer"
    ∧ ({ id := 1, email := "a@b.c", password := "Hsecret1", role := "viewer" } : StoredUser).role ≠ "admin"
    ∧ ({ id := 1, email := "a@b.c", password := "Hsecret1", role := "viewer" } : StoredUser).role ≠ "editor"
    ∧ ({ id := 1, email := "a@b.c", password := "Hsecret1", role := "viewer" } : StoredUser).role ≠ "moderator" :=
  register_role_always_viewer (fun p => "H" ++ p) [] "a@b.c" "secret1"
    { status := 201, body := RespBody.registerSuccess "User created successfully" 1 "a@b.c" "viewer" }
    { id := 1, email := "a@b.c", password := "Hsecret1", role := "viewer" }
    (by decide)


end RightHand
